import Mathlib

/-!
Shallow embedding of the go-api user CRUD service.

The five HTTP handlers are translated from `src/controllers/user_controller.go`
(GetUsers, GetUser, CreateUser, UpdateUser, DeleteUser).  Each handler is a
function from the store state and the request inputs to the store state after
the request together with the ordered list of responses written by `c.JSON`
calls; the Go `return` after every write makes each branch end with exactly one
write.  The `models` package defining `models.User` and the GORM-backed
relational store are not part of the handler sources, so the entity shape and
the persistence-gateway operations are modelled from the specification
(sections 3, 4.2 and 6) and marked as such in their doc comments.
-/

namespace GoApi

/-- Modelled from the spec: the `models` package defining `models.User` is not
among the handler sources.  Per section 3 a `User` is an integer surrogate
primary key `id`, a free-text `name` and a free-text `email`. -/
structure User where
  id : Int
  name : String
  email : String
deriving Repr, DecidableEq

/-- Modelled from the spec: per section 6 the POST and PUT request bodies are
JSON objects carrying `name` and `email`; the store assigns `id` (section 3),
so the bound payload carries only these two fields, with the Go zero value
(the empty string) standing for an absent field. -/
structure UserPayload where
  name : String
  email : String
deriving Repr, DecidableEq

/-- Database errors exactly as the handlers distinguish them:
`gorm.ErrRecordNotFound` versus any other error carrying a message. -/
inductive DBError where
  | recordNotFound
  | other (msg : String)
deriving Repr, DecidableEq

/-- Message of a database error, as `result.Error.Error()` renders it. -/
def DBError.message : DBError → String
  | .recordNotFound => "record not found"
  | .other m => m

/-- Modelled from the spec: the relational store behind the Persistence Gateway
(section 4.2) — the rows of the `User` table plus the auto-increment counter
the store uses to assign primary keys. -/
structure Store where
  users : List User
  nextId : Int
deriving Repr, DecidableEq

/-- Well-formedness of a store: the auto-increment counter is positive and
strictly above every id already in the table, which is what makes freshly
assigned ids positive and distinct from existing rows.  A newly opened store
satisfies this and every operation preserves it. -/
def Store.WF (s : Store) : Prop :=
  0 < s.nextId ∧ ∀ u ∈ s.users, u.id < s.nextId

instance (s : Store) : Decidable s.WF :=
  inferInstanceAs (Decidable (0 < s.nextId ∧ ∀ u ∈ s.users, u.id < s.nextId))

/-- Gateway operation `ListAll`, the `uc.DB.Find(&users)` call: returns every
row.  The in-memory relational model itself cannot fail, but the handler still
inspects `result.Error`, so the result keeps the `Except` shape. -/
def dbFind (s : Store) : Except DBError (List User) :=
  .ok s.users

/-- Gateway operation `GetByID`, the `uc.DB.First(&user, id)` call: primary-key
lookup, `gorm.ErrRecordNotFound` when no row carries the id. -/
def dbFirst (s : Store) (id : Int) : Except DBError User :=
  match s.users.find? (fun u => u.id == id) with
  | some u => .ok u
  | none => .error .recordNotFound

/-- Modelled from the spec: gateway operation `Create` (section 4.2), the
`uc.DB.Create(&user)` call — the store assigns the next auto-increment id to
the new row and returns the row with `id` populated. -/
def dbCreate (s : Store) (p : UserPayload) : Except DBError (User × Store) :=
  let u : User := ⟨s.nextId, p.name, p.email⟩
  .ok (u, ⟨s.users ++ [u], s.nextId + 1⟩)

/-- Modelled from the spec: the merge step of `UpdateByID` (section 4.2) —
non-zero-valued fields of the payload overwrite the stored record, zero-valued
(empty) ones leave it unchanged; `id` is immutable (section 3). -/
def mergeUser (u : User) (p : UserPayload) : User :=
  { u with
    name := if p.name = "" then u.name else p.name
    email := if p.email = "" then u.email else p.email }

/-- Modelled from the spec: the persist step of `UpdateByID` (section 4.2), the
`uc.DB.Model(&user).Updates(updateData)` call — writes the merged record over
the row carrying the looked-up record's primary key and leaves the looked-up
record holding the merged fields. -/
def dbUpdates (s : Store) (u : User) (p : UserPayload) :
    Except DBError (User × Store) :=
  let m := mergeUser u p
  .ok (m, ⟨s.users.map (fun v => if v.id = u.id then m else v), s.nextId⟩)

/-- Modelled from the spec: gateway operation `DeleteByID` (section 4.2), the
`uc.DB.Delete(&user)` call — a hard delete (section 3): every row carrying the
record's primary key is removed permanently, no soft-delete marker. -/
def dbDelete (s : Store) (u : User) : Except DBError Store :=
  .ok ⟨s.users.filter (fun v => v.id != u.id), s.nextId⟩

/-- JSON response bodies the controller writes: a single user, an array of
users, an object with a single string field named `error`, or an object with a
single string field named `message`. -/
inductive Body where
  | userBody (u : User)
  | usersBody (l : List User)
  | errorBody (msg : String)
  | messageBody (msg : String)
deriving Repr, DecidableEq

/-- Tests whether a body is a single-user document. -/
def Body.isUser : Body → Bool
  | .userBody _ => true
  | _ => false

/-- Tests whether a body is a user-array document. -/
def Body.isUsers : Body → Bool
  | .usersBody _ => true
  | _ => false

/-- Tests whether a body is a single-field error object. -/
def Body.isError : Body → Bool
  | .errorBody _ => true
  | _ => false

/-- Tests whether a body is a single-field message object. -/
def Body.isMessage : Body → Bool
  | .messageBody _ => true
  | _ => false

/-- One HTTP response as written by a `c.JSON(status, body)` call. -/
structure Response where
  status : Nat
  body : Body
deriving Repr, DecidableEq

/-- Helper for the digit loop of `strconv.Atoi`: the value of a digit string,
`none` as soon as a non-digit appears. -/
def digitsVal : List Char → Nat → Option Nat
  | [], acc => some acc
  | c :: cs, acc =>
    if c.isDigit then digitsVal cs (10 * acc + (c.toNat - 48)) else none

/-- Value of a non-empty all-digit string, `none` on the empty string or when a
non-digit appears. -/
def parseDigits : List Char → Option Nat
  | [] => none
  | cs => digitsVal cs 0

/-- Translation of `strconv.Atoi` on path parameters: an optional leading sign
followed by at least one digit and nothing else; the 64-bit range check is not
modelled. -/
def atoi (s : String) : Option Int :=
  match s.data with
  | '+' :: rest => (parseDigits rest).map (fun n => (n : Int))
  | '-' :: rest => (parseDigits rest).map (fun n => -(n : Int))
  | cs => (parseDigits cs).map (fun n => (n : Int))

/-- Handler `GetUsers` of `src/controllers/user_controller.go` (lines 33-45):
fetch all rows and answer 200 with the array, or 500 on a store error. -/
def getUsers (s : Store) : Store × List Response :=
  match dbFind s with
  | .error e => (s, [⟨500, .errorBody e.message⟩])
  | .ok users => (s, [⟨200, .usersBody users⟩])

/-- Handler `GetUser` of `src/controllers/user_controller.go` (lines 57-81):
parse the `:id` path parameter (400 on failure), look the row up (404 when
absent, 500 on any other store error), answer 200 with the row. -/
def getUser (s : Store) (idParam : String) : Store × List Response :=
  match atoi idParam with
  | none => (s, [⟨400, .errorBody "Invalid user ID"⟩])
  | some id =>
    match dbFirst s id with
    | .error .recordNotFound => (s, [⟨404, .errorBody "User not found"⟩])
    | .error (.other m) => (s, [⟨500, .errorBody m⟩])
    | .ok user => (s, [⟨200, .userBody user⟩])

/-- Handler `CreateUser` of `src/controllers/user_controller.go` (lines
93-111): bind the JSON body (`Except.error msg` models a `ShouldBindJSON`
failure with message `msg`, answered with 400), insert the row (500 on a store
error), answer 201 with the created row. -/
def createUser (s : Store) (body : Except String UserPayload) :
    Store × List Response :=
  match body with
  | .error msg => (s, [⟨400, .errorBody msg⟩])
  | .ok p =>
    match dbCreate s p with
    | .error e => (s, [⟨500, .errorBody e.message⟩])
    | .ok (u, s2) => (s2, [⟨201, .userBody u⟩])

/-- Handler `UpdateUser` of `src/controllers/user_controller.go` (lines
125-163): parse the id (400), fetch the row (404 when absent, 500 otherwise),
only then bind the body (400), merge the non-zero fields and persist (500 on a
store error), answer 200 with the merged row. -/
def updateUser (s : Store) (idParam : String) (body : Except String UserPayload) :
    Store × List Response :=
  match atoi idParam with
  | none => (s, [⟨400, .errorBody "Invalid user ID"⟩])
  | some id =>
    match dbFirst s id with
    | .error .recordNotFound => (s, [⟨404, .errorBody "User not found"⟩])
    | .error (.other m) => (s, [⟨500, .errorBody m⟩])
    | .ok user =>
      match body with
      | .error msg => (s, [⟨400, .errorBody msg⟩])
      | .ok p =>
        match dbUpdates s user p with
        | .error e => (s, [⟨500, .errorBody e.message⟩])
        | .ok (merged, s2) => (s2, [⟨200, .userBody merged⟩])

/-- Handler `DeleteUser` of `src/controllers/user_controller.go` (lines
176-207): parse the id (400), fetch the row (404 when absent, 500 otherwise),
hard-delete it (500 on a store error), answer 200 with a confirmation
message. -/
def deleteUser (s : Store) (idParam : String) : Store × List Response :=
  match atoi idParam with
  | none => (s, [⟨400, .errorBody "Invalid user ID"⟩])
  | some id =>
    match dbFirst s id with
    | .error .recordNotFound => (s, [⟨404, .errorBody "User not found"⟩])
    | .error (.other m) => (s, [⟨500, .errorBody m⟩])
    | .ok user =>
      match dbDelete s user with
      | .error e => (s, [⟨500, .errorBody e.message⟩])
      | .ok s2 => (s2, [⟨200, .messageBody "User deleted successfully"⟩])

/-- A successful `dbFirst` comes from a successful `find?` on the rows. -/
theorem dbFirst_ok_find? (s : Store) (id : Int) (u : User)
    (h : dbFirst s id = .ok u) :
    s.users.find? (fun v => v.id == id) = some u := by
  unfold dbFirst at h
  rcases hf : s.users.find? (fun v => v.id == id) with _ | u2
  · rw [hf] at h
    exact absurd h (by simp)
  · rw [hf] at h
    simp only [Except.ok.injEq] at h
    rw [h] at hf
    exact hf

/-- The row `dbFirst` returns carries the looked-up id. -/
theorem dbFirst_ok_id (s : Store) (id : Int) (u : User)
    (h : dbFirst s id = .ok u) : u.id = id := by
  have hp := List.find?_some (dbFirst_ok_find? s id u h)
  simpa using hp

/-- C2: the List operation on a store containing no records answers 200 with
the empty array — the body is the empty-array document, not an error object
about missing fields. -/
theorem getUsers_empty_store (n : Int) :
    (getUsers ⟨[], n⟩).2 = [⟨200, Body.usersBody []⟩] := rfl

/-- C5: the Update operation on an integer id with no corresponding record
answers 404 and returns the store unchanged — in particular no record is
created, whatever the request body held. -/
theorem updateUser_missing_id (s : Store) (t : String) (id : Int)
    (body : Except String UserPayload)
    (ht : atoi t = some id) (hnf : dbFirst s id = .error .recordNotFound) :
    updateUser s t body = (s, [⟨404, Body.errorBody "User not found"⟩]) := by
  simp [updateUser, ht, hnf]

/-- Witness for `updateUser_missing_id` at a concrete empty store. -/
theorem updateUser_missing_id_witness :
    updateUser ⟨[], 1⟩ "5" (Except.error "bad json") =
      (⟨[], 1⟩, [⟨404, Body.errorBody "User not found"⟩]) :=
  updateUser_missing_id ⟨[], 1⟩ "5" 5 (Except.error "bad json")
    (by decide) (by rfl)

/-- C4: the Get operation answers 400 when the path id does not parse
as an integer, 404 when it parses but no record carries it, and every response
it writes has status 200, 400 or 404 — no other failure outcome occurs. -/
theorem getUser_failure_modes (s : Store) (t : String) :
    (atoi t = none →
      (getUser s t).2 = [⟨400, Body.errorBody "Invalid user ID"⟩]) ∧
    (∀ id, atoi t = some id → dbFirst s id = .error .recordNotFound →
      (getUser s t).2 = [⟨404, Body.errorBody "User not found"⟩]) ∧
    (∀ r ∈ (getUser s t).2,
      r.status = 200 ∨ r.status = 400 ∨ r.status = 404) := by
  refine ⟨?_, ?_, ?_⟩
  · intro h
    simp [getUser, h]
  · intro id h1 h2
    simp [getUser, h1, h2]
  · intro r hr
    cases h1 : atoi t with
    | none =>
      simp [getUser, h1] at hr
      simp [hr]
    | some id =>
      cases hf : s.users.find? (fun u => u.id == id) with
      | none =>
        simp [getUser, dbFirst, h1, hf] at hr
        simp [hr]
      | some u =>
        simp [getUser, dbFirst, h1, hf] at hr
        simp [hr]

/-- Witness for `getUser_failure_modes` at concrete inputs. -/
theorem getUser_failure_modes_witness :
    (getUser ⟨[], 1⟩ "abc").2 = [⟨400, Body.errorBody "Invalid user ID"⟩] ∧
    (getUser ⟨[], 1⟩ "7").2 = [⟨404, Body.errorBody "User not found"⟩] :=
  ⟨(getUser_failure_modes ⟨[], 1⟩ "abc").1 (by decide),
   (getUser_failure_modes ⟨[], 1⟩ "7").2.1 7 (by decide) (by rfl)⟩

/-- C10: every handler writes exactly one HTTP response on every input — no
request path writes two responses or falls through without responding. -/
theorem handlers_write_exactly_one_response (s : Store) (t : String)
    (cb ub : Except String UserPayload) :
    (getUsers s).2.length = 1 ∧ (getUser s t).2.length = 1 ∧
    (createUser s cb).2.length = 1 ∧ (updateUser s t ub).2.length = 1 ∧
    (deleteUser s t).2.length = 1 := by
  refine ⟨rfl, ?_, ?_, ?_, ?_⟩
  · unfold getUser
    split
    · rfl
    · split <;> rfl
  · unfold createUser
    split <;> rfl
  · unfold updateUser
    split
    · rfl
    · split
      · rfl
      · rfl
      · split <;> rfl
  · unfold deleteUser
    split
    · rfl
    · split <;> rfl

/-- C3: on an existing record, Update answers 200 with the merged record,
where exactly the non-zero-valued (non-empty) payload fields overwrite the
stored ones, the id is unchanged, and the store persists the merged record in
place of the old row. -/
theorem updateUser_merges_nonzero_fields (s : Store) (t : String) (id : Int)
    (u : User) (p : UserPayload)
    (ht : atoi t = some id) (hu : dbFirst s id = .ok u) :
    ∃ m : User,
      updateUser s t (.ok p) =
        (⟨s.users.map (fun v => if v.id = u.id then m else v), s.nextId⟩,
          [⟨200, Body.userBody m⟩]) ∧
      m.id = u.id ∧
      m.name = (if p.name = "" then u.name else p.name) ∧
      m.email = (if p.email = "" then u.email else p.email) := by
  refine ⟨mergeUser u p, ?_, rfl, rfl, rfl⟩
  simp [updateUser, ht, hu, dbUpdates]

/-- Witness for `updateUser_merges_nonzero_fields`: updating a concrete record
with an empty name and a non-empty email changes only the email. -/
theorem updateUser_merges_nonzero_fields_witness :
    (updateUser ⟨[⟨1, "Alice", "a@x.com"⟩], 2⟩ "1"
        (Except.ok ⟨"", "b@y.com"⟩)).2 =
      [⟨200, Body.userBody ⟨1, "Alice", "b@y.com"⟩⟩] := by
  obtain ⟨m, hm, hid, hname, hemail⟩ :=
    updateUser_merges_nonzero_fields ⟨[⟨1, "Alice", "a@x.com"⟩], 2⟩ "1" 1
      ⟨1, "Alice", "a@x.com"⟩ ⟨"", "b@y.com"⟩ (by decide) (by rfl)
  have hmv : m = ⟨1, "Alice", "b@y.com"⟩ := by
    cases m
    simp_all
  rw [hm, hmv]

/-- C9: in Update the existence check runs before the body is bound — a
missing record yields 404 even on a malformed body, and a body-parse 400
(whose message is the bind error, not the invalid-id message) can only occur
when the id parsed and its record exists. -/
theorem updateUser_existence_checked_before_body (s : Store) (t : String)
    (msg : String) :
    (∀ id, atoi t = some id → dbFirst s id = .error .recordNotFound →
      (updateUser s t (.error msg)).2 =
        [⟨404, Body.errorBody "User not found"⟩]) ∧
    (msg ≠ "Invalid user ID" →
      (updateUser s t (.error msg)).2 = [⟨400, Body.errorBody msg⟩] →
      ∃ id u, atoi t = some id ∧ dbFirst s id = .ok u) := by
  constructor
  · intro id h1 h2
    simp [updateUser, h1, h2]
  · intro hmsg hresp
    cases h1 : atoi t with
    | none =>
      rw [show (updateUser s t (.error msg)).2 =
          [⟨400, Body.errorBody "Invalid user ID"⟩] by
        simp [updateUser, h1]] at hresp
      simp at hresp
      exact absurd hresp.symm hmsg
    | some id =>
      cases hf : s.users.find? (fun v => v.id == id) with
      | none =>
        rw [show (updateUser s t (.error msg)).2 =
            [⟨404, Body.errorBody "User not found"⟩] by
          simp [updateUser, dbFirst, h1, hf]] at hresp
        simp at hresp
      | some u =>
        exact ⟨id, u, rfl, by simp [dbFirst, hf]⟩

/-- Witness for `updateUser_existence_checked_before_body`: a malformed body
on a missing id still yields 404. -/
theorem updateUser_existence_checked_before_body_witness :
    (updateUser ⟨[], 1⟩ "7" (Except.error "unexpected EOF")).2 =
      [⟨404, Body.errorBody "User not found"⟩] :=
  (updateUser_existence_checked_before_body ⟨[], 1⟩ "7" "unexpected EOF").1
    7 (by decide) (by rfl)

/-- C1: on a well-formed store, a valid create payload yields a 201 response
carrying a record with the payload's name and email and a positive id, and a
subsequent Get on that id answers 200 with the same record. -/
theorem create_then_get (s : Store) (hw : s.WF) (name email : String)
    (t : String) (ht : atoi t = some s.nextId) :
    ∃ u : User,
      (createUser s (.ok ⟨name, email⟩)).2 = [⟨201, Body.userBody u⟩] ∧
      u.name = name ∧ u.email = email ∧ 0 < u.id ∧
      (getUser (createUser s (.ok ⟨name, email⟩)).1 t).2 =
        [⟨200, Body.userBody u⟩] := by
  refine ⟨⟨s.nextId, name, email⟩, by simp [createUser, dbCreate], rfl, rfl,
    hw.1, ?_⟩
  have hnone : s.users.find? (fun v => v.id == s.nextId) = none := by
    rw [List.find?_eq_none]
    intro v hv
    simp only [beq_iff_eq]
    exact Int.ne_of_lt (hw.2 v hv)
  simp [createUser, dbCreate, getUser, ht, dbFirst, hnone]

/-- Witness for `create_then_get` on the empty store: creating the test user
and fetching id 1 round-trips. -/
theorem create_then_get_witness :
    (getUser
        (createUser ⟨[], 1⟩
          (Except.ok ⟨"Test User", "test@example.com"⟩)).1 "1").2 =
      [⟨200, Body.userBody ⟨1, "Test User", "test@example.com"⟩⟩] := by
  obtain ⟨u, h1, -, -, -, h2⟩ :=
    create_then_get ⟨[], 1⟩ (by decide) "Test User" "test@example.com" "1"
      (by decide)
  have h1c :
      ([⟨201, Body.userBody ⟨1, "Test User", "test@example.com"⟩⟩] :
        List Response) = [⟨201, Body.userBody u⟩] := h1
  have h3 : (⟨1, "Test User", "test@example.com"⟩ : User) = u := by
    simpa using h1c
  rw [← h3] at h2
  exact h2

/-- C6: a successful Delete of an existing id answers 200, leaves no row with
that id in the store (hard delete, nothing marked or retained), and a
subsequent Get on the same id answers 404. -/
theorem delete_then_get (s : Store) (t : String) (id : Int) (u : User)
    (ht : atoi t = some id) (hu : dbFirst s id = .ok u) :
    (deleteUser s t).2 =
      [⟨200, Body.messageBody "User deleted successfully"⟩] ∧
    (∀ v ∈ (deleteUser s t).1.users, v.id ≠ id) ∧
    (getUser (deleteUser s t).1 t).2 =
      [⟨404, Body.errorBody "User not found"⟩] := by
  have hid : u.id = id := dbFirst_ok_id s id u hu
  have hdel : deleteUser s t =
      (⟨s.users.filter (fun v => v.id != u.id), s.nextId⟩,
        [⟨200, Body.messageBody "User deleted successfully"⟩]) := by
    simp [deleteUser, ht, hu, dbDelete]
  refine ⟨by rw [hdel], ?_, ?_⟩
  · intro v hv
    rw [hdel] at hv
    simp only [List.mem_filter, bne_iff_ne, ne_eq] at hv
    rw [← hid]
    exact hv.2
  · rw [hdel]
    have hnone :
        ((s.users.filter (fun v => v.id != u.id)).find?
          (fun v => v.id == id)) = none := by
      rw [List.find?_eq_none]
      intro v hv
      simp only [List.mem_filter, bne_iff_ne, ne_eq] at hv
      simp only [beq_iff_eq]
      rw [← hid]
      exact hv.2
    simp [getUser, ht, dbFirst, hnone]

/-- Witness for `delete_then_get` on a concrete one-record store. -/
theorem delete_then_get_witness :
    (deleteUser ⟨[⟨1, "A", "a@x.com"⟩], 2⟩ "1").2 =
      [⟨200, Body.messageBody "User deleted successfully"⟩] ∧
    (getUser (deleteUser ⟨[⟨1, "A", "a@x.com"⟩], 2⟩ "1").1 "1").2 =
      [⟨404, Body.errorBody "User not found"⟩] := by
  have h := delete_then_get ⟨[⟨1, "A", "a@x.com"⟩], 2⟩ "1" 1
    ⟨1, "A", "a@x.com"⟩ (by decide) (by rfl)
  exact ⟨h.1, h.2.2⟩

/-- C7: the id of a created record is the store's auto-increment counter —
independent of anything in the request body, which carries no id at all — the
create appends the new row leaving existing rows untouched, Update never
changes any row's id, and Delete only ever removes rows, never rewrites an
id. -/
theorem created_id_store_assigned_and_stable (s : Store) (p : UserPayload) :
    (∃ u : User,
      (createUser s (.ok p)).2 = [⟨201, Body.userBody u⟩] ∧
      u.id = s.nextId ∧
      (createUser s (.ok p)).1.users = s.users ++ [u]) ∧
    (∀ t body, ((updateUser s t body).1.users.map User.id) =
      s.users.map User.id) ∧
    (∀ t, ((deleteUser s t).1.users.map User.id).Sublist
      (s.users.map User.id)) := by
  refine ⟨⟨⟨s.nextId, p.name, p.email⟩, by simp [createUser, dbCreate], rfl,
    by simp [createUser, dbCreate]⟩, ?_, ?_⟩
  · intro t body
    cases h1 : atoi t with
    | none => simp [updateUser, h1]
    | some id =>
      cases hf : s.users.find? (fun v => v.id == id) with
      | none => simp [updateUser, dbFirst, h1, hf]
      | some u =>
        cases body with
        | error msg => simp [updateUser, dbFirst, h1, hf]
        | ok q =>
          simp only [updateUser, dbFirst, h1, hf, dbUpdates]
          rw [List.map_map]
          refine List.map_congr_left ?_
          intro v hv
          by_cases hviu : v.id = u.id
          · simp [Function.comp, hviu, mergeUser]
          · simp [Function.comp, hviu]
  · intro t
    cases h1 : atoi t with
    | none => simp [deleteUser, h1]
    | some id =>
      cases hf : s.users.find? (fun v => v.id == id) with
      | none => simp [deleteUser, dbFirst, h1, hf]
      | some u =>
        simp only [deleteUser, dbFirst, h1, hf, dbDelete]
        exact (List.filter_sublist s.users).map User.id

/-- C8: on every input, every response the five handlers write is either a
success — status 200 (201 for Create) with a user document, a user-array
document, or for Delete the confirmation-message object — or an error with
status at least 400 whose body is the single-string-field error object. -/
theorem response_body_shapes (s : Store) (t : String)
    (cb ub : Except String UserPayload) :
    (∀ r ∈ (getUsers s).2,
      (r.status = 200 ∧ r.body.isUsers = true) ∨
      (400 ≤ r.status ∧ r.body.isError = true)) ∧
    (∀ r ∈ (getUser s t).2,
      (r.status = 200 ∧ r.body.isUser = true) ∨
      (400 ≤ r.status ∧ r.body.isError = true)) ∧
    (∀ r ∈ (createUser s cb).2,
      (r.status = 201 ∧ r.body.isUser = true) ∨
      (400 ≤ r.status ∧ r.body.isError = true)) ∧
    (∀ r ∈ (updateUser s t ub).2,
      (r.status = 200 ∧ r.body.isUser = true) ∨
      (400 ≤ r.status ∧ r.body.isError = true)) ∧
    (∀ r ∈ (deleteUser s t).2,
      (r.status = 200 ∧
        r.body = Body.messageBody "User deleted successfully") ∨
      (400 ≤ r.status ∧ r.body.isError = true)) := by
  refine ⟨?_, ?_, ?_, ?_, ?_⟩
  · intro r hr
    simp only [getUsers, dbFind] at hr
    simp only [List.mem_singleton] at hr
    subst hr
    simp [Body.isUsers]
  · intro r hr
    unfold getUser at hr
    split at hr <;>
      [skip; split at hr] <;>
      (simp only [List.mem_singleton] at hr; subst hr;
        simp [Body.isUser, Body.isError])
  · intro r hr
    unfold createUser at hr
    split at hr <;>
      (simp only [dbCreate, List.mem_singleton] at hr; subst hr;
        simp [Body.isUser, Body.isError])
  · intro r hr
    unfold updateUser at hr
    split at hr <;>
      [skip;
        (split at hr <;>
          [skip; skip; (split at hr <;> [skip; simp only [dbUpdates] at hr])])] <;>
      (simp only [List.mem_singleton] at hr; subst hr;
        simp [Body.isUser, Body.isError])
  · intro r hr
    unfold deleteUser at hr
    split at hr <;>
      [skip; (split at hr <;> [skip; skip; simp only [dbDelete] at hr])] <;>
      (simp only [List.mem_singleton] at hr; subst hr;
        simp [Body.isError])

/-- Witness for `response_body_shapes`: the response of List on the empty
store is a 200 with a user-array body. -/
theorem response_body_shapes_witness :
    ((⟨200, Body.usersBody []⟩ : Response).status = 200 ∧
      (⟨200, Body.usersBody []⟩ : Response).body.isUsers = true) ∨
    (400 ≤ (⟨200, Body.usersBody []⟩ : Response).status ∧
      (⟨200, Body.usersBody []⟩ : Response).body.isError = true) :=
  (response_body_shapes ⟨[], 1⟩ "1" (Except.error "x") (Except.error "x")).1
    ⟨200, Body.usersBody []⟩ (by decide)

end GoApi
